import Mathlib

/-!
Verification of the render-engine render-graph core.

Shallow embedding of the nschweitz/render-engine repository: the pass-graph
orchestration (`System`), the two GPU-object caches (`PipelineCache` and the
resource-binding cache), the buffer-upload helpers of
`src/render-engine/src/utils.rs`, and the two example binaries
(`src/examples/src/bin/pretty.rs`, `src/examples/src/bin/point-shadow.rs`).

The crate sources for `system.rs`, `pipeline_cache.rs` and the collection
cache are not part of the provided tree; those components are modelled from
the specification (each such definition says so in its doc comment).  The
example binaries and `utils.rs` are present and are embedded directly.
-/

namespace RenderEngine

/-! ## Pipeline cache (modelled from the spec; `pipeline_cache.rs` is absent) -/

/-- Modelled from the spec: `PipelineSpec` (§3) — the structural description of
a GPU pipeline used as the cache key: vertex/fragment shader references,
vertex layout descriptor, primitive topology, depth-read/write flags and the
target render-pass identity.  Shader references are path strings (the callers
in `pretty.rs` pass `vs_path`/`fs_path`); layout, topology and render pass are
opaque identities. -/
structure PipelineSpec where
  vs_path : String
  fs_path : String
  vertex_layout : Nat
  fill_type : Nat
  read_depth : Bool
  write_depth : Bool
  render_pass : Nat
deriving DecidableEq, Repr

/-- Association-list lookup of a pipeline spec by structural equality. -/
def lookupSpec : List (PipelineSpec × Nat) → PipelineSpec → Option Nat
  | [], _ => none
  | (k, v) :: rest, s => if k = s then some v else lookupSpec rest s

/-- Modelled from the spec: `PipelineCache` (§4.2, absent `pipeline_cache.rs`) —
entries keyed by structural equality of the spec, a fresh-handle counter, and
the diagnostic hit/build counters (`print_stats` in `pretty.rs` reads them). -/
structure PipelineCache where
  entries : List (PipelineSpec × Nat)
  next_handle : Nat
  builds : Nat
  hits : Nat
deriving DecidableEq, Repr

/-- Modelled from the spec: `PipelineCache::get_or_build` (§4.2) — on a hit,
return the existing handle with no GPU interaction (only the diagnostic hit
counter moves); on a miss, build a new immutable pipeline object (a fresh
handle), store it keyed by the spec, and return it. -/
def PipelineCache.get_or_build (c : PipelineCache) (s : PipelineSpec) :
    Nat × PipelineCache :=
  match lookupSpec c.entries s with
  | some h => (h, { c with hits := c.hits + 1 })
  | none =>
      (c.next_handle,
       { entries := (s, c.next_handle) :: c.entries
         next_handle := c.next_handle + 1
         builds := c.builds + 1
         hits := c.hits })

/-! ## Resource-binding cache (modelled from the spec; the collection cache
source is absent; `point-shadow.rs` reaches it through `pds_for_buffers`) -/

/-- A GPU buffer: an identity plus current contents.  The binding-cache key
uses only the identity; contents model in-place mutation. -/
structure GpuBuffer where
  id : Nat
  contents : List Nat
deriving DecidableEq, Repr

/-- Modelled from the spec: the `ResourceBindingCache` key (§3, §4.3) —
(pipeline-layout identity, ordered list of buffer-handle identities). -/
def bindingKey (layout : Nat) (buffers : List GpuBuffer) : Nat × List Nat :=
  (layout, buffers.map GpuBuffer.id)

/-- Association-list lookup of a binding key. -/
def lookupBinding : List ((Nat × List Nat) × Nat) → Nat × List Nat → Option Nat
  | [], _ => none
  | (k, v) :: rest, key => if k = key then some v else lookupBinding rest key

/-- Modelled from the spec: `ResourceBindingCache` (§4.3, source absent) —
binding-set entries keyed by (layout identity, buffer-identity list). -/
structure ResourceBindingCache where
  entries : List ((Nat × List Nat) × Nat)
  next_handle : Nat
  builds : Nat
deriving DecidableEq, Repr

/-- Modelled from the spec: `ResourceBindingCache::get_or_build` (§4.3) — the
same at-most-one-build contract as the pipeline cache, keyed on buffer
*identity*, never contents. -/
def ResourceBindingCache.get_or_build (c : ResourceBindingCache)
    (layout : Nat) (buffers : List GpuBuffer) : Nat × ResourceBindingCache :=
  match lookupBinding c.entries (bindingKey layout buffers) with
  | some h => (h, c)
  | none =>
      (c.next_handle,
       { entries := (bindingKey layout buffers, c.next_handle) :: c.entries
         next_handle := c.next_handle + 1
         builds := c.builds + 1 })

/-! ## utils.rs — buffer creation helpers (present in src) -/

/-- Outcome of a vulkano allocation call (`from_data` / `from_iter`): either
the buffer, or an allocation/compilation failure. -/
inductive AllocResult (α : Type) where
  | ok : α → AllocResult α
  | fail : String → AllocResult α
deriving DecidableEq, Repr

/-- The function `upload_data` of `src/render-engine/src/utils.rs`:
`CpuAccessibleBuffer::from_data(device, BufferUsage::all(), data).unwrap()`.
The `.unwrap()` turns an allocation failure into a panic that unwinds out of
the frame loop; `Except.error` models that panic.  The function's Rust return
type is the bare buffer — there is no error value a caller could receive. -/
def upload_data {α : Type} (r : AllocResult α) : Except String α :=
  match r with
  | .ok a => .ok a
  | .fail m => .error m

/-- The function `immutable_slice` of `src/render-engine/src/utils.rs`:
`ImmutableBuffer::from_iter(...).unwrap().0` — identical unwrap-on-failure
policy. -/
def immutable_slice {α : Type} (r : AllocResult α) : Except String α :=
  match r with
  | .ok a => .ok a
  | .fail m => .error m

/-- A frame's sequence of per-frame buffer uploads, as performed by the main
loop of `pretty.rs` (one `upload` call per mutated collection).  The first
failing upload panics: the remaining uploads are never attempted and the loop
terminates with that failure; there is no retry. -/
def runUploads : List (AllocResult Nat) → Except String (List Nat)
  | [] => .ok []
  | .ok b :: rest => (runUploads rest).map (fun l => b :: l)
  | .fail m :: _ => .error m

/-! ## System (pass graph) — modelled from the spec; `system.rs` is absent -/

/-- Image sizing policy (spec §4.1): fixed images (e.g. shadow maps) never
change size; window-relative images track the presentation surface. -/
inductive SizingMode where
  | fixed
  | windowRelative
deriving DecidableEq, Repr

/-- A concrete image: identity, dimensions, sizing mode, and which pass
produced it (`none` for a caller-supplied fixed image).  The caller-supplied
images in both examples are `AttachmentImage::sampled(device, SHADOW_MAP_DIMS,
D32Sfloat)` — fixed-size. -/
structure Image where
  id : Nat
  width : Nat
  height : Nat
  mode : SizingMode
  producedBy : Option String
deriving DecidableEq, Repr

/-- A pass exactly as the examples construct it (`pretty.rs` lines 66–99,
`point-shadow.rs` lines 50–69): name, created image tags, needed image tags,
and a render-pass identity. -/
structure Pass where
  name : String
  images_created_tags : List String
  images_needed_tags : List String
  render_pass : Nat
deriving DecidableEq, Repr

/-- First needed tag in the given list that is not among the available tags. -/
def findMissing (avail : List String) : List String → Option String
  | [] => none
  | t :: ts => if t ∈ avail then findMissing avail ts else some t

/-- First violation of the needed-tag ordering rule: scan the passes in
declared order, carrying the set of tags available so far (fixed-image tags
plus created tags of strictly earlier passes); report the first pass whose
needed tag is not yet available, together with that tag. -/
def firstMissingNeedAux : List Pass → List String → Option (String × String)
  | [], _ => none
  | p :: rest, avail =>
      match findMissing avail p.images_needed_tags with
      | some t => some (p.name, t)
      | none => firstMissingNeedAux rest (avail ++ p.images_created_tags)

/-- Modelled from the spec: the construction-time dependency check (§4.1,
§8 Scenario B) — every needed tag must be produced by an earlier pass or the
caller-supplied fixed-image set. -/
def firstMissingNeed (passes : List Pass) (fixedTags : List String) :
    Option (String × String) :=
  firstMissingNeedAux passes fixedTags

/-- Whether a tag is produced anywhere: by the fixed-image set or by some
pass's created tags. -/
def producedAnywhere (passes : List Pass) (fixed : List (String × Image))
    (t : String) : Bool :=
  fixed.any (fun e => e.1 = t) || passes.any (fun p => p.images_created_tags.contains t)

/-- Build the tag registry: start from the caller-supplied fixed images and,
walking the passes in declared order, lazily create a window-relative image
(at the current surface dimensions) for every created tag that does not
already resolve — a created tag that already resolves (a fixed image, or a
tag created by an earlier pass) is rendered into, not recreated.  Fresh image
identities come from a counter. -/
def addCreatedImages (surface : Nat × Nat) :
    List Pass → List (String × Image) → Nat → List (String × Image)
  | [], reg, _ => reg
  | p :: rest, reg, nextId =>
      let step := p.images_created_tags.foldl
        (fun (acc : List (String × Image) × Nat) t =>
          if acc.1.any (fun e => e.1 = t) then acc
          else (acc.1 ++ [(t, ⟨acc.2, surface.1, surface.2, .windowRelative, some p.name⟩)],
                acc.2 + 1))
        (reg, nextId)
      addCreatedImages surface rest step.1 step.2

/-- A configuration error detected at construction, naming the offending pass
and tag (spec §7). -/
inductive ConfigError where
  | missingNeededTag (passName : String) (tag : String)
  | outputTagNotProduced (tag : String)
deriving DecidableEq, Repr

/-- The constructed pass graph: the declared pass list, the tag registry and
the (mutable, `system.output_tag = ...` in both examples) output-tag
selector. -/
structure System where
  passes : List Pass
  registry : List (String × Image)
  output_tag : String
deriving DecidableEq, Repr

/-- Modelled from the spec: `System::new` (§4.1; `system.rs` is absent) —
fails with a configuration error naming the violating pass and tag when some
needed tag is not produced by a strictly earlier pass or the fixed-image set,
and fails when the output tag is produced nowhere; otherwise builds the tag
registry and succeeds.  The spec's third check (tag produced by more than one
source) is deliberately not modelled: both in-tree callers construct systems
whose fixed-image tags reappear in a pass's created tags (`"shadow_map"` in
both examples — the pass renders into the caller's image) and whose
`"depth_prepass"` tag is created by two passes (`pretty.rs`), and then run
frames, so construction cannot reject duplicate producers. -/
def System.new (surface : Nat × Nat) (passes : List Pass)
    (custom_images : List (String × Image)) (output_tag : String) :
    Except ConfigError System :=
  match firstMissingNeed passes (custom_images.map Prod.fst) with
  | some pt => .error (.missingNeededTag pt.1 pt.2)
  | none =>
      if producedAnywhere passes custom_images output_tag then
        .ok ⟨passes, addCreatedImages surface passes custom_images 0, output_tag⟩
      else .error (.outputTagNotProduced output_tag)

/-- Resolve a tag to its image in the registry. -/
def lookupTag (reg : List (String × Image)) (t : String) : Option Image :=
  (reg.find? (fun e => e.1 = t)).map Prod.snd

/-! ## Frame execution — modelled from the spec (§4.1 begin/advance) -/

/-- The record of one executed pass: its name, the needed-tag bindings
resolved against the registry, and the draw objects invoked (draw objects are
opaque identities; the examples register them per pass between `next_pass`
calls). -/
structure PassExec where
  passName : String
  boundInputs : List (String × Option Image)
  draws : List Nat
deriving DecidableEq, Repr

/-- Modelled from the spec: executing one pass — bind the needed-tag images as
sampled inputs, then invoke draw() on every draw object registered for the
pass. -/
def runPass (reg : List (String × Image)) (objs : String → List Nat)
    (p : Pass) : PassExec :=
  { passName := p.name
    boundInputs := p.images_needed_tags.map (fun t => (t, lookupTag reg t))
    draws := objs p.name }

/-- Modelled from the spec: one frame (§4.1) — execute the passes strictly in
declared order, each exactly once, then copy the image bound to the output
tag to the presentation surface (the second component). -/
def runFrame (s : System) (objs : String → List Nat) :
    List PassExec × Option Image :=
  (s.passes.map (runPass s.registry objs), lookupTag s.registry s.output_tag)

/-- The mutable output-tag selector (`system.output_tag = "cubemap_view"` in
`point-shadow.rs` line 155). -/
def System.setOutputTag (s : System) (t : String) : System :=
  { s with output_tag := t }

/-! ## Resize — modelled from the spec (§4.1 image sizing policy) -/

/-- Modelled from the spec: on a resize notification, walk the registry —
a fixed image is untouched; a window-relative image is torn down and
recreated (fresh identity drawn from a counter) at the new surface
dimensions. -/
def resizeRegistry (newW newH : Nat) :
    List (String × Image) → Nat → List (String × Image)
  | [], _ => []
  | (t, img) :: rest, fresh =>
      match img.mode with
      | .fixed => (t, img) :: resizeRegistry newW newH rest fresh
      | .windowRelative =>
          (t, ⟨fresh, newW, newH, .windowRelative, img.producedBy⟩) ::
            resizeRegistry newW newH rest (fresh + 1)

/-- Modelled from the spec: resize recreates window-relative images in place;
it never restructures the graph (pass list and output tag untouched). -/
def System.resize (s : System) (newW newH fresh : Nat) : System :=
  { s with registry := resizeRegistry newW newH s.registry fresh }

/-! ## Declarative dependency conditions -/

/-- Tags available to the pass at index `i`: the fixed-image tags plus every
tag created by a strictly earlier pass. -/
def availableBefore (fixedTags : List String) (passes : List Pass) (i : Nat) :
    List String :=
  fixedTags ++ (passes.take i).flatMap Pass.images_created_tags

/-- The needed-tag ordering condition exactly as the claim states it: every
pass's needed tags are all produced by an earlier pass or present in the
caller-supplied fixed-image set. -/
def NeedsSatisfied (passes : List Pass) (fixedTags : List String) : Prop :=
  ∀ i, (hi : i < passes.length) →
    ∀ t ∈ (passes.get ⟨i, hi⟩).images_needed_tags,
      t ∈ availableBefore fixedTags passes i

instance (passes : List Pass) (fixedTags : List String) :
    Decidable (NeedsSatisfied passes fixedTags) := by
  unfold NeedsSatisfied
  infer_instance

/-- Pass `pn` genuinely violates the ordering rule at tag `t`: some pass named
`pn` needs `t`, and `t` is neither a fixed-image tag nor created by a strictly
earlier pass. -/
def NeedViolation (passes : List Pass) (fixedTags : List String)
    (pn t : String) : Prop :=
  ∃ i, ∃ hi : i < passes.length,
    (passes.get ⟨i, hi⟩).name = pn ∧
    t ∈ (passes.get ⟨i, hi⟩).images_needed_tags ∧
    t ∉ availableBefore fixedTags passes i

/-- Number of sources producing a tag: one if the fixed-image set supplies it,
plus one per pass listing it among its created tags. -/
def producersCount (passes : List Pass) (fixedTags : List String)
    (t : String) : Nat :=
  (if fixedTags.contains t then 1 else 0) +
    (passes.filter (fun p => p.images_created_tags.contains t)).length

/-- Whether an `Except` computation succeeded. -/
def exceptIsOk {ε α : Type} : Except ε α → Bool
  | .ok _ => true
  | .error _ => false

/-! ## The two in-tree configurations -/

/-- The five-pass configuration of `pretty.rs` (lines 62–103).  Render-pass
identities: `render_pass` (read_depth) = 0, `rpass_shadow` = 1,
`rpass_shadow_blur` = 2, `rpass_cubeview` = 3, `rpass_prepass` = 4. -/
def prettyPasses : List Pass :=
  [ { name := "shadow", images_created_tags := ["shadow_map"],
      images_needed_tags := [], render_pass := 1 }
  , { name := "shadow_blur", images_created_tags := ["shadow_map_blur"],
      images_needed_tags := ["shadow_map"], render_pass := 2 }
  , { name := "depth_prepass", images_created_tags := ["depth_prepass"],
      images_needed_tags := [], render_pass := 4 }
  , { name := "depth_viewer", images_created_tags := ["depth_view"],
      images_needed_tags := ["depth_prepass", "shadow_map_blur"], render_pass := 3 }
  , { name := "geometry", images_created_tags := ["color", "depth_prepass"],
      images_needed_tags := ["shadow_map_blur"], render_pass := 0 } ]

/-- The caller-supplied fixed images of `pretty.rs` (lines 35–49): two
`AttachmentImage::sampled` depth images at `SHADOW_MAP_DIMS = [6144, 1024]`. -/
def prettyCustomImages : List (String × Image) :=
  [ ("shadow_map", ⟨100, 6144, 1024, .fixed, none⟩)
  , ("shadow_map_blur", ⟨101, 6144, 1024, .fixed, none⟩) ]

/-- The three-pass configuration of `point-shadow.rs` (lines 46–73).
Render-pass identities: `rpass1` = 1, `rpass2` = 2, `rpass3` = 3. -/
def pointShadowPasses : List Pass :=
  [ { name := "shadow", images_created_tags := ["shadow_map"],
      images_needed_tags := [], render_pass := 1 }
  , { name := "cubemap_view", images_created_tags := ["cubemap_view"],
      images_needed_tags := ["shadow_map"], render_pass := 2 }
  , { name := "final", images_created_tags := ["final_color", "final_depth"],
      images_needed_tags := ["shadow_map"], render_pass := 3 } ]

/-- The caller-supplied fixed image of `point-shadow.rs` (lines 33–40). -/
def pointShadowCustomImages : List (String × Image) :=
  [ ("shadow_map", ⟨100, 6144, 1024, .fixed, none⟩) ]

/-! ## Scenario A of the spec (§8) -/

/-- Scenario A, first pass: produces "x", needs nothing. -/
def passA : Pass :=
  { name := "A", images_created_tags := ["x"], images_needed_tags := [],
    render_pass := 0 }

/-- Scenario A, second pass: produces "y", needs "x". -/
def passB : Pass :=
  { name := "B", images_created_tags := ["y"], images_needed_tags := ["x"],
    render_pass := 0 }

/-- One registered draw object for each scenario pass: object 1 on pass A,
object 2 on pass B. -/
def objsAB : String → List Nat :=
  fun n => if n = "A" then [1] else if n = "B" then [2] else []

/-- The system `System.new (800, 600) [passA, passB] [] "y"` constructs. -/
def scenarioASystem : System :=
  { passes := [passA, passB]
    registry := [ ("x", ⟨0, 800, 600, .windowRelative, some "A"⟩)
                , ("y", ⟨1, 800, 600, .windowRelative, some "B"⟩) ]
    output_tag := "y" }

/-- A freshly created pipeline cache (`PipelineCache::new`). -/
def emptyPipelineCache : PipelineCache :=
  { entries := [], next_handle := 0, builds := 0, hits := 0 }

/-- The geometry-pass pipeline spec of `pretty.rs` (lines 159–173): vertex
shader `vert.glsl`, fragment shader `all_frag.glsl`, triangle list, depth
read and write, bound to the main render pass (identity 0). -/
def allFragSpec : PipelineSpec :=
  { vs_path := "shaders/pretty/vert.glsl"
    fs_path := "shaders/pretty/all_frag.glsl"
    vertex_layout := 0
    fill_type := 0
    read_depth := true
    write_depth := true
    render_pass := 0 }

/-- The same spec with the fragment shader swapped for the diffuse-only debug
visualization (`pretty.rs` lines 392–394) — exactly one field differs. -/
def diffuseOnlySpec : PipelineSpec :=
  { allFragSpec with fs_path := "shaders/pretty/diffuse_only_frag.glsl" }

/-- A freshly created resource-binding cache. -/
def emptyBindingCache : ResourceBindingCache :=
  { entries := [], next_handle := 0, builds := 0 }

/-- A small system holding the fixed shadow map of `pretty.rs` and one
window-relative color image, for exercising resize. -/
def resizeDemoSystem : System :=
  { passes := []
    registry := [ ("shadow_map", ⟨100, 6144, 1024, .fixed, none⟩)
                , ("color", ⟨0, 800, 600, .windowRelative, some "geometry"⟩) ]
    output_tag := "color" }

/-! ## View-mode state machine of pretty.rs (lines 289, 363–485) -/

/-- The C-key branch (`pretty.rs` line 365): `view_mode = (view_mode + 1) % 12`.
Rust's `%` on `i32` truncates toward zero, which is `Int.tmod`. -/
def stepC (v : Int) : Int := (v + 1).tmod 12

/-- The V-key branch (`pretty.rs` lines 370–374): decrement, then replace a
negative result by 12. -/
def stepV (v : Int) : Int := if v - 1 < 0 then 12 else v - 1

/-- Which of the C and V keys were pressed during one frame. -/
structure FrameKeys where
  keyC : Bool
  keyV : Bool
deriving DecidableEq, Repr

/-- One frame's effect on `view_mode`: the C branch runs first, then the V
branch sees the updated value, exactly as the two `if` statements execute. -/
def viewModeFrame (v : Int) (k : FrameKeys) : Int :=
  let v1 := if k.keyC then stepC v else v
  if k.keyV then stepV v1 else v1

/-- The `view_mode` value after a sequence of frames, starting from the
initial `let mut view_mode: i32 = 0` (`pretty.rs` line 289). -/
def viewModeRun (ks : List FrameKeys) : Int :=
  ks.foldl viewModeFrame 0

/-- The `match view_mode` of `pretty.rs` lines 382–482: each arm yields the
fragment-shader path it installs on the geometry objects (`none` for arm 9,
which only switches the output tag) and the output tag it selects; the
wildcard arm aborts with "bad view mode" and is modelled as `none`. -/
def viewModeArm (v : Int) : Option (Option String × String) :=
  if v = 0 then some (some "shaders/pretty/all_frag.glsl", "color")
  else if v = 1 then some (some "shaders/pretty/diffuse_only_frag.glsl", "color")
  else if v = 2 then some (some "shaders/pretty/diffuse_and_light_frag.glsl", "color")
  else if v = 3 then some (some "shaders/pretty/diffuse_light_distance_frag.glsl", "color")
  else if v = 4 then some (some "shaders/pretty/specular_only.glsl", "color")
  else if v = 5 then some (some "shaders/pretty/diffuse_and_spec.glsl", "color")
  else if v = 6 then some (some "shaders/pretty/normals_only.glsl", "color")
  else if v = 7 then some (some "shaders/pretty/diffuse_and_spec.glsl", "color")
  else if v = 8 then some (some "shaders/pretty/diffuse_spec_normal.glsl", "color")
  else if v = 9 then some (none, "depth_view")
  else if v = 10 then some (some "shaders/pretty/shadows_only.glsl", "color")
  else if v = 11 then some (some "shaders/pretty/shadows_and_color.glsl", "color")
  else if v = 12 then some (some "shaders/pretty/all_frag.glsl", "color")
  else none

/-! ## convert_to_shadow_casters (pretty.rs lines 573–658) -/

/-- `PATCH_DIMS` of `pretty.rs` line 27.  Every `f32` value involved here is a
small integer on which `f32` arithmetic is exact, so the embedding uses ℚ. -/
def PATCH_DIMS : ℚ × ℚ := (1024, 1024)

/-- A vulkano `Viewport`: origin and dimensions (depth range is constant). -/
structure Viewport where
  origin : ℚ × ℚ
  dimensions : ℚ × ℚ
deriving DecidableEq, Repr

/-- A vulkano `DynamicState` as the examples build it: just the viewport
list. -/
structure DynamicState where
  viewports : List Viewport
deriving DecidableEq, Repr

/-- `dynamic_state_for_bounds` of `pretty.rs` lines 660–670: a single
viewport with the given origin and dimensions. -/
def dynamic_state_for_bounds (origin : ℚ × ℚ) (dimensions : ℚ × ℚ) :
    DynamicState :=
  { viewports := [{ origin := origin, dimensions := dimensions }] }

/-- The fields of the base `ObjectPrototype` that `convert_to_shadow_casters`
copies into each face's object. -/
structure ObjectPrototypeBase where
  vs_path : String
  fs_path : String
  fill_type : Nat
  read_depth : Bool
  write_depth : Bool
  mesh : Nat
deriving DecidableEq, Repr

/-- One object produced by `convert_to_shadow_casters`: the copied base
fields, the inputs of its per-face `look_at` view matrix (eye, direction, up
— the float matrix entries themselves are not modelled), and the per-face
dynamic state. -/
structure ShadowCasterObject where
  base : ObjectPrototypeBase
  view_eye : ℚ × ℚ × ℚ
  view_dir : ℚ × ℚ × ℚ
  view_up : ℚ × ℚ × ℚ
  custom_dynamic_state : Option DynamicState
deriving DecidableEq, Repr

/-- `view_directions` of `pretty.rs` lines 584–591. -/
def view_directions : List (ℚ × ℚ × ℚ) :=
  [(1, 0, 0), (-1, 0, 0), (0, 1, 0), (0, -1, 0), (0, 0, 1), (0, 0, -1)]

/-- `up_directions` of `pretty.rs` lines 593–600. -/
def up_directions : List (ℚ × ℚ × ℚ) :=
  [(0, -1, 0), (0, -1, 0), (0, 0, 1), (0, 0, -1), (0, -1, 0), (0, -1, 0)]

/-- `patch_positions` of `pretty.rs` lines 602–609. -/
def patch_positions : List (ℚ × ℚ) :=
  [(0, 0), (1, 0), (2, 0), (3, 0), (4, 0), (5, 0)]

/-- `convert_to_shadow_casters` of `pretty.rs` lines 573–658: zip the view
directions with the up directions and patch positions, and build one object
per cubemap face whose dynamic state covers the face's patch —
`origin = patch_pos * PATCH_DIMS + margin`,
`dimensions = PATCH_DIMS - margin * 2`, with `margin = 0`. -/
def convert_to_shadow_casters (base_object : ObjectPrototypeBase)
    (light_position : ℚ × ℚ × ℚ) : List ShadowCasterObject :=
  (view_directions.zip (up_directions.zip patch_positions)).map
    (fun e =>
      let dir := e.1
      let up := e.2.1
      let patch_pos := e.2.2
      let margin : ℚ := 0
      let origin := (patch_pos.1 * PATCH_DIMS.1 + margin,
                     patch_pos.2 * PATCH_DIMS.2 + margin)
      let dynamic_state := dynamic_state_for_bounds origin
        (PATCH_DIMS.1 - margin * 2, PATCH_DIMS.2 - margin * 2)
      { base := base_object
        view_eye := light_position
        view_dir := dir
        view_up := up
        custom_dynamic_state := some dynamic_state })

/-! ## Helper lemmas -/

theorem firstMissingNeedAux_cons (p : Pass) (rest : List Pass)
    (avail : List String) :
    firstMissingNeedAux (p :: rest) avail =
      match findMissing avail p.images_needed_tags with
      | some t => some (p.name, t)
      | none => firstMissingNeedAux rest (avail ++ p.images_created_tags) := rfl

theorem findMissing_eq_none_iff (avail ts : List String) :
    findMissing avail ts = none ↔ ∀ t ∈ ts, t ∈ avail := by
  induction ts with
  | nil => simp [findMissing]
  | cons u ts ih =>
      by_cases hu : u ∈ avail
      · simp [findMissing, hu, ih]
      · simp [findMissing, hu]

theorem findMissing_eq_some (avail ts : List String) (t : String)
    (h : findMissing avail ts = some t) : t ∈ ts ∧ t ∉ avail := by
  induction ts with
  | nil => simp [findMissing] at h
  | cons u ts ih =>
      by_cases hu : u ∈ avail
      · rw [findMissing, if_pos hu] at h
        obtain ⟨h1, h2⟩ := ih h
        exact ⟨List.mem_cons_of_mem u h1, h2⟩
      · rw [findMissing, if_neg hu] at h
        obtain rfl : u = t := Option.some.inj h
        exact ⟨List.mem_cons_self u ts, hu⟩

theorem firstMissingNeedAux_eq_none_iff :
    ∀ (passes : List Pass) (avail : List String),
      firstMissingNeedAux passes avail = none ↔
        ∀ i, (hi : i < passes.length) →
          ∀ t ∈ (passes.get ⟨i, hi⟩).images_needed_tags,
            t ∈ avail ++ (passes.take i).flatMap Pass.images_created_tags
  | [], avail => by simp [firstMissingNeedAux]
  | p :: rest, avail => by
      rw [firstMissingNeedAux_cons]
      cases hfm : findMissing avail p.images_needed_tags with
      | some u =>
          simp only []
          constructor
          · intro h; exact absurd h (by simp)
          · intro h
            have hmem := findMissing_eq_some avail _ u hfm
            have hin := h 0 (by simp) u hmem.1
            simp at hin
            exact absurd hin hmem.2
      | none =>
          have ihiff :=
            firstMissingNeedAux_eq_none_iff rest (avail ++ p.images_created_tags)
          constructor
          · intro h i hi t ht
            cases i with
            | zero =>
                have hmem : t ∈ avail :=
                  ((findMissing_eq_none_iff _ _).1 hfm) t ht
                simp [hmem]
            | succ j =>
                have hj : j < rest.length := Nat.lt_of_succ_lt_succ hi
                have := (ihiff.1 h) j hj t ht
                simpa [List.append_assoc] using this
          · intro h
            apply ihiff.2
            intro j hj t ht
            have := h (j + 1) (Nat.succ_lt_succ hj) t ht
            simpa [List.append_assoc] using this

theorem firstMissingNeedAux_eq_some :
    ∀ (passes : List Pass) (avail : List String) (pn t : String),
      firstMissingNeedAux passes avail = some (pn, t) →
        ∃ i, ∃ hi : i < passes.length,
          (passes.get ⟨i, hi⟩).name = pn ∧
          t ∈ (passes.get ⟨i, hi⟩).images_needed_tags ∧
          t ∉ avail ++ (passes.take i).flatMap Pass.images_created_tags
  | [], _, pn, t => by simp [firstMissingNeedAux]
  | p :: rest, avail, pn, t => by
      rw [firstMissingNeedAux_cons]
      cases hfm : findMissing avail p.images_needed_tags with
      | some u =>
          intro h
          simp only [Option.some.injEq, Prod.mk.injEq] at h
          obtain ⟨h1, h2⟩ := h
          subst h1; subst h2
          have hmem := findMissing_eq_some avail _ u hfm
          exact ⟨0, by simp, rfl, hmem.1, by simpa using hmem.2⟩
      | none =>
          intro h
          obtain ⟨j, hj, hname, hmem, hnot⟩ :=
            firstMissingNeedAux_eq_some rest _ pn t h
          exact ⟨j + 1, Nat.succ_lt_succ hj, hname, hmem,
            by simpa [List.append_assoc] using hnot⟩

theorem resizeRegistry_map_fst (w h : Nat) :
    ∀ (reg : List (String × Image)) (fresh : Nat),
      (resizeRegistry w h reg fresh).map Prod.fst = reg.map Prod.fst
  | [], _ => rfl
  | (t, img) :: rest, fresh => by
      cases hm : img.mode with
      | fixed =>
          simp [resizeRegistry, hm, resizeRegistry_map_fst w h rest fresh]
      | windowRelative =>
          simp [resizeRegistry, hm, resizeRegistry_map_fst w h rest (fresh + 1)]

theorem resizeRegistry_fixed_mem (w h : Nat) :
    ∀ (reg : List (String × Image)) (fresh : Nat) (t : String) (img : Image),
      (t, img) ∈ reg → img.mode = .fixed →
      (t, img) ∈ resizeRegistry w h reg fresh
  | [], _, _, _, hmem, _ => absurd hmem (List.not_mem_nil _)
  | (t0, img0) :: rest, fresh, t, img, hmem, hfix => by
      rcases List.mem_cons.1 hmem with heq | htail
      · injection heq with h1 h2
        subst h1; subst h2
        simp only [resizeRegistry, hfix]
        exact List.mem_cons_self _ _
      · cases hm : img0.mode with
        | fixed =>
            simp only [resizeRegistry, hm]
            exact List.mem_cons_of_mem _
              (resizeRegistry_fixed_mem w h rest fresh t img htail hfix)
        | windowRelative =>
            simp only [resizeRegistry, hm]
            exact List.mem_cons_of_mem _
              (resizeRegistry_fixed_mem w h rest (fresh + 1) t img htail hfix)

theorem resizeRegistry_wr_mem (w h : Nat) :
    ∀ (reg : List (String × Image)) (fresh : Nat) (t : String) (img : Image),
      (t, img) ∈ reg → img.mode = .windowRelative →
      ∃ img', (t, img') ∈ resizeRegistry w h reg fresh ∧
        img'.width = w ∧ img'.height = h ∧ img'.mode = .windowRelative ∧
        img'.producedBy = img.producedBy
  | [], _, _, _, hmem, _ => absurd hmem (List.not_mem_nil _)
  | (t0, img0) :: rest, fresh, t, img, hmem, hwr => by
      rcases List.mem_cons.1 hmem with heq | htail
      · injection heq with h1 h2
        subst h1; subst h2
        refine ⟨⟨fresh, w, h, .windowRelative, img.producedBy⟩, ?_, rfl, rfl, rfl, rfl⟩
        simp only [resizeRegistry, hwr]
        exact List.mem_cons_self _ _
      · cases hm : img0.mode with
        | fixed =>
            obtain ⟨img', hmem', hw, hh, hm', hp⟩ :=
              resizeRegistry_wr_mem w h rest fresh t img htail hwr
            refine ⟨img', ?_, hw, hh, hm', hp⟩
            simp only [resizeRegistry, hm]
            exact List.mem_cons_of_mem _ hmem'
        | windowRelative =>
            obtain ⟨img', hmem', hw, hh, hm', hp⟩ :=
              resizeRegistry_wr_mem w h rest (fresh + 1) t img htail hwr
            refine ⟨img', ?_, hw, hh, hm', hp⟩
            simp only [resizeRegistry, hm]
            exact List.mem_cons_of_mem _ hmem'

theorem runUploads_first_failure :
    ∀ (pre : List (AllocResult Nat)) (m : String)
      (post : List (AllocResult Nat)),
      (∀ r ∈ pre, ∃ b, r = .ok b) →
      runUploads (pre ++ .fail m :: post) = .error m
  | [], _, _, _ => rfl
  | r :: rest, m, post, hpre => by
      obtain ⟨b, rfl⟩ := hpre r (List.mem_cons_self _ _)
      have ih := runUploads_first_failure rest m post
        (fun x hx => hpre x (List.mem_cons_of_mem _ hx))
      simp [runUploads, ih, Except.map]

theorem stepC_range (v : Int) (h0 : 0 ≤ v) (h12 : v ≤ 12) :
    0 ≤ stepC v ∧ stepC v ≤ 12 := by
  interval_cases v <;> decide

theorem stepV_range (v : Int) (h0 : 0 ≤ v) (h12 : v ≤ 12) :
    0 ≤ stepV v ∧ stepV v ≤ 12 := by
  unfold stepV
  split <;> omega

theorem viewModeFrame_range (v : Int) (k : FrameKeys)
    (h0 : 0 ≤ v) (h12 : v ≤ 12) :
    0 ≤ viewModeFrame v k ∧ viewModeFrame v k ≤ 12 := by
  have h1 : 0 ≤ (if k.keyC then stepC v else v) ∧
      (if k.keyC then stepC v else v) ≤ 12 := by
    by_cases hc : k.keyC
    · simpa [hc] using stepC_range v h0 h12
    · simpa [hc] using And.intro h0 h12
  by_cases hv : k.keyV
  · simpa [viewModeFrame, hv] using stepV_range _ h1.1 h1.2
  · simpa [viewModeFrame, hv] using h1

theorem viewModeFoldl_range :
    ∀ (ks : List FrameKeys) (v : Int), 0 ≤ v → v ≤ 12 →
      0 ≤ ks.foldl viewModeFrame v ∧ ks.foldl viewModeFrame v ≤ 12
  | [], v, h0, h12 => ⟨h0, h12⟩
  | k :: rest, v, h0, h12 => by
      have h := viewModeFrame_range v k h0 h12
      simpa [List.foldl] using viewModeFoldl_range rest (viewModeFrame v k) h.1 h.2

theorem viewModeArm_isSome (v : Int) (h0 : 0 ≤ v) (h12 : v ≤ 12) :
    (viewModeArm v).isSome = true := by
  interval_cases v <;> decide

/-! ## Claim C1 -/

/-- C1 counterexample: a pass list whose needed tags are all satisfied (pass
"A" needs nothing), yet construction fails — the requested output tag "y" is
produced nowhere, and the spec's construction contract (§4.1) rejects that
before any frame.  So "for every pass list in which each pass's needed tags
are all produced by an earlier pass or the fixed-image set, construction
succeeds" is false as stated. -/
theorem needed_tags_ok_but_construction_fails :
    NeedsSatisfied [passA] [] ∧
    System.new (800, 600) [passA] [] "y" =
      .error (.outputTagNotProduced "y") := by
  exact ⟨by decide, rfl⟩

/-- C1 (amended): for every pass list in which each pass's needed tags are all
produced by an earlier pass or present in the caller-supplied fixed-image set,
and whose output tag is produced by some pass or the fixed-image set,
construction succeeds; for every pass list violating the needed-tag condition,
construction fails deterministically — the result is the error naming the
first violating pass and tag, and that tag genuinely violates the ordering
rule — before any frame executes. -/
theorem system_new_validates_dependencies (surface : Nat × Nat)
    (passes : List Pass) (custom : List (String × Image)) (out : String) :
    (NeedsSatisfied passes (custom.map Prod.fst) →
      producedAnywhere passes custom out = true →
      ∃ sys, System.new surface passes custom out = .ok sys ∧
        sys.passes = passes ∧ sys.output_tag = out)
    ∧ (∀ pn t, firstMissingNeed passes (custom.map Prod.fst) = some (pn, t) →
        System.new surface passes custom out =
          .error (.missingNeededTag pn t) ∧
        NeedViolation passes (custom.map Prod.fst) pn t)
    ∧ (¬ NeedsSatisfied passes (custom.map Prod.fst) →
        ∃ pn t, System.new surface passes custom out =
            .error (.missingNeededTag pn t) ∧
          NeedViolation passes (custom.map Prod.fst) pn t) := by
  have hiff := firstMissingNeedAux_eq_none_iff passes (custom.map Prod.fst)
  refine ⟨?_, ?_, ?_⟩
  · intro hNS hout
    have hnone : firstMissingNeed passes (custom.map Prod.fst) = none :=
      hiff.2 hNS
    exact ⟨⟨passes, addCreatedImages surface passes custom 0, out⟩,
      by simp [System.new, firstMissingNeed] at hnone ⊢; simp [hnone, hout],
      rfl, rfl⟩
  · intro pn t hsome
    refine ⟨by simp [System.new, hsome], ?_⟩
    obtain ⟨i, hi, hname, hmem, hnot⟩ :=
      firstMissingNeedAux_eq_some passes (custom.map Prod.fst) pn t hsome
    exact ⟨i, hi, hname, hmem, hnot⟩
  · intro hns
    cases hfm : firstMissingNeed passes (custom.map Prod.fst) with
    | none => exact absurd (hiff.1 hfm) hns
    | some pt =>
        obtain ⟨pn, t⟩ := pt
        refine ⟨pn, t, by simp [System.new, hfm], ?_⟩
        obtain ⟨i, hi, hname, hmem, hnot⟩ :=
          firstMissingNeedAux_eq_some passes (custom.map Prod.fst) pn t hfm
        exact ⟨i, hi, hname, hmem, hnot⟩

/-- C1 witness: the amended theorem applied to Scenario A (§8) — passes A and
B with the needed-tag and output conditions satisfied — and, for the failure
direction, to Scenario B (§8), where pass "A" needs "y" before pass "B"
produces it. -/
theorem system_new_validates_dependencies_witness :
    (∃ sys, System.new (800, 600) [passA, passB] [] "y" = .ok sys ∧
      sys.passes = [passA, passB] ∧ sys.output_tag = "y")
    ∧ (∃ pn t,
        System.new (800, 600)
          [ { name := "A", images_created_tags := ["x"],
              images_needed_tags := ["y"], render_pass := 0 }
          , { name := "B", images_created_tags := ["y"],
              images_needed_tags := [], render_pass := 0 } ] [] "y" =
          .error (.missingNeededTag pn t) ∧
        NeedViolation
          [ { name := "A", images_created_tags := ["x"],
              images_needed_tags := ["y"], render_pass := 0 }
          , { name := "B", images_created_tags := ["y"],
              images_needed_tags := [], render_pass := 0 } ] [] pn t) :=
  ⟨(system_new_validates_dependencies (800, 600) [passA, passB] [] "y").1
      (by decide) (by decide),
   (system_new_validates_dependencies (800, 600)
      [ { name := "A", images_created_tags := ["x"],
          images_needed_tags := ["y"], render_pass := 0 }
      , { name := "B", images_created_tags := ["y"],
          images_needed_tags := [], render_pass := 0 } ] [] "y").2.2
      (by decide)⟩

/-! ## Claim C2 -/

/-- C2 counterexample: the configuration of `point-shadow.rs` (the repository's
own example, lines 33–73) has the tag "shadow_map" produced by two sources —
the caller-supplied fixed-image set and pass "shadow"'s created tags — yet
construction succeeds (the example goes on to render frames with it), so
"construction fails whenever a tag has more than one producer" is false. -/
theorem duplicate_producer_construction_succeeds :
    exceptIsOk (System.new (800, 600) pointShadowPasses
      pointShadowCustomImages "final_color") = true ∧
    producersCount pointShadowPasses (pointShadowCustomImages.map Prod.fst)
      "shadow_map" = 2 := ⟨rfl, rfl⟩

/-- C2 (amended): a tag may be produced by more than one source — a
caller-supplied fixed image's tag may also appear in a pass's created tags
(the pass then renders into the caller's image), and two passes may list the
same created tag — and construction does not fail for duplicate producers: in
the `pretty.rs` configuration "shadow_map" and "shadow_map_blur" are each
produced by the fixed-image set and one pass, "depth_prepass" by two passes,
and construction succeeds. -/
theorem pretty_duplicate_producers_construction_succeeds :
    exceptIsOk (System.new (800, 600) prettyPasses prettyCustomImages
      "color") = true ∧
    producersCount prettyPasses (prettyCustomImages.map Prod.fst)
      "shadow_map" = 2 ∧
    producersCount prettyPasses (prettyCustomImages.map Prod.fst)
      "shadow_map_blur" = 2 ∧
    producersCount prettyPasses (prettyCustomImages.map Prod.fst)
      "depth_prepass" = 2 := ⟨rfl, rfl, rfl, rfl⟩

/-! ## Claim C3 -/

/-- C3: for a spec `s` not yet cached, calling `get_or_build` twice with
structurally equal specs performs exactly one build and returns the same
handle both times (the second call adds no entry); calling it with `s` and
then a spec `t` differing in at least one field performs two builds and
returns two distinct handles — at most one build per distinct spec value,
regardless of call site. -/
theorem pipeline_cache_at_most_one_build (c : PipelineCache)
    (s t : PipelineSpec)
    (hs : lookupSpec c.entries s = none)
    (ht : lookupSpec c.entries t = none)
    (hst : s ≠ t) :
    ((c.get_or_build s).1 = ((c.get_or_build s).2.get_or_build s).1 ∧
      ((c.get_or_build s).2.get_or_build s).2.builds = c.builds + 1 ∧
      ((c.get_or_build s).2.get_or_build s).2.entries =
        (c.get_or_build s).2.entries)
    ∧ ((c.get_or_build s).1 ≠ ((c.get_or_build s).2.get_or_build t).1 ∧
       ((c.get_or_build s).2.get_or_build t).2.builds = c.builds + 2) := by
  simp only [PipelineCache.get_or_build, hs]
  simp only [lookupSpec, if_pos rfl, if_neg hst, ht]
  simp

/-- C3 witness: the theorem at the empty cache, with the `all_frag` spec of
`pretty.rs` and the same spec with its fragment shader swapped for the
`diffuse_only` debug shader (one field changed). -/
theorem pipeline_cache_at_most_one_build_witness :
    ((emptyPipelineCache.get_or_build allFragSpec).1 =
        ((emptyPipelineCache.get_or_build allFragSpec).2.get_or_build
          allFragSpec).1 ∧
      ((emptyPipelineCache.get_or_build allFragSpec).2.get_or_build
          allFragSpec).2.builds = emptyPipelineCache.builds + 1 ∧
      ((emptyPipelineCache.get_or_build allFragSpec).2.get_or_build
          allFragSpec).2.entries =
        (emptyPipelineCache.get_or_build allFragSpec).2.entries)
    ∧ ((emptyPipelineCache.get_or_build allFragSpec).1 ≠
        ((emptyPipelineCache.get_or_build allFragSpec).2.get_or_build
          diffuseOnlySpec).1 ∧
       ((emptyPipelineCache.get_or_build allFragSpec).2.get_or_build
          diffuseOnlySpec).2.builds = emptyPipelineCache.builds + 2) :=
  pipeline_cache_at_most_one_build emptyPipelineCache allFragSpec
    diffuseOnlySpec rfl rfl (by decide)

/-! ## Claim C4 -/

/-- C4: within every frame the passes of a constructed graph execute strictly
in declared order, each exactly once — the executed-pass name sequence is the
declared name sequence — and in Scenario A (§8) the system built from passes
A (produces "x") and B (needs "x", produces "y") runs A then B exactly once,
with B's needed-tag binding resolving to the image pass A produced
(`producedBy = "A"`). -/
theorem passes_execute_in_declared_order (s : System)
    (objs : String → List Nat) :
    ((runFrame s objs).1.map PassExec.passName = s.passes.map Pass.name)
    ∧ (System.new (800, 600) [passA, passB] [] "y" = .ok scenarioASystem
       ∧ (runFrame scenarioASystem objsAB).1 =
           [ { passName := "A", boundInputs := [], draws := [1] }
           , { passName := "B",
               boundInputs :=
                 [("x", some ⟨0, 800, 600, .windowRelative, some "A"⟩)],
               draws := [2] } ]
       ∧ (Image.producedBy ⟨0, 800, 600, .windowRelative, some "A"⟩)
           = some "A") := by
  constructor
  · simp [runFrame, runPass, Function.comp]
  · exact ⟨rfl, rfl, rfl⟩

/-! ## Claim C5 -/

/-- C5: switching the output tag between two valid produced tags changes only
which image is copied to the presentation surface after the last pass — the
per-pass records (bindings and draw-call sequences) of the frame are
identical under either output tag, and the presented image is exactly the
registry's image for the selected tag. -/
theorem output_tag_pure_selector (s : System) (objs : String → List Nat)
    (t1 t2 : String)
    (_hv1 : (lookupTag s.registry t1).isSome = true)
    (_hv2 : (lookupTag s.registry t2).isSome = true) :
    (runFrame (s.setOutputTag t1) objs).1 =
      (runFrame (s.setOutputTag t2) objs).1
    ∧ (runFrame (s.setOutputTag t1) objs).2 = lookupTag s.registry t1
    ∧ (runFrame (s.setOutputTag t2) objs).2 = lookupTag s.registry t2 :=
  ⟨rfl, rfl, rfl⟩

/-- C5 witness: the theorem at the Scenario A system, switching the output
tag between the two produced tags "x" and "y". -/
theorem output_tag_pure_selector_witness :
    (runFrame (scenarioASystem.setOutputTag "x") objsAB).1 =
      (runFrame (scenarioASystem.setOutputTag "y") objsAB).1
    ∧ (runFrame (scenarioASystem.setOutputTag "x") objsAB).2 =
        lookupTag scenarioASystem.registry "x"
    ∧ (runFrame (scenarioASystem.setOutputTag "y") objsAB).2 =
        lookupTag scenarioASystem.registry "y" :=
  output_tag_pure_selector scenarioASystem objsAB "x" "y" rfl rfl

/-! ## Claim C6 -/

/-- C6: for a (layout, ordered buffer-handle-identity list) key not yet
cached, two `get_or_build` calls with the same key return the same handle
with exactly one build; changing the identity of one handle in the list
yields a different handle; and mutating the contents of already-bound buffers
in place (same identities, different contents) hits the same entry — same
handle, no new cache entry, no build. -/
theorem resource_binding_cache_identity_key (c : ResourceBindingCache)
    (layout : Nat) (bufs bufs2 other : List GpuBuffer)
    (hids : bufs.map GpuBuffer.id = bufs2.map GpuBuffer.id)
    (hnone : lookupBinding c.entries (bindingKey layout bufs) = none)
    (honone : lookupBinding c.entries (bindingKey layout other) = none)
    (hdiff : bufs.map GpuBuffer.id ≠ other.map GpuBuffer.id) :
    ((c.get_or_build layout bufs).1 =
        ((c.get_or_build layout bufs).2.get_or_build layout bufs).1
      ∧ ((c.get_or_build layout bufs).2.get_or_build layout bufs).2.builds =
          c.builds + 1)
    ∧ ((c.get_or_build layout bufs).1 ≠
        ((c.get_or_build layout bufs).2.get_or_build layout other).1)
    ∧ (((c.get_or_build layout bufs).2.get_or_build layout bufs2).1 =
        (c.get_or_build layout bufs).1
      ∧ ((c.get_or_build layout bufs).2.get_or_build layout
          bufs2).2.entries.length =
          (c.get_or_build layout bufs).2.entries.length
      ∧ ((c.get_or_build layout bufs).2.get_or_build layout bufs2).2.builds =
          (c.get_or_build layout bufs).2.builds) := by
  have hkey : bindingKey layout bufs2 = bindingKey layout bufs := by
    simp [bindingKey, hids]
  have hkdiff : bindingKey layout bufs ≠ bindingKey layout other := by
    simp [bindingKey]
    exact hdiff
  simp only [ResourceBindingCache.get_or_build, hnone, hkey]
  simp only [lookupBinding, if_pos rfl, if_neg hkdiff, honone]
  simp

/-- C6 witness: the theorem at the empty binding cache, with two buffers
(identities 1 and 2), the same buffers with buffer 1's contents mutated in
place, and a list in which buffer 1 was re-allocated (identity 3). -/
theorem resource_binding_cache_identity_key_witness :
    ((emptyBindingCache.get_or_build 0 [⟨1, [10]⟩, ⟨2, [20]⟩]).1 =
        ((emptyBindingCache.get_or_build 0
          [⟨1, [10]⟩, ⟨2, [20]⟩]).2.get_or_build 0
            [⟨1, [10]⟩, ⟨2, [20]⟩]).1
      ∧ ((emptyBindingCache.get_or_build 0
          [⟨1, [10]⟩, ⟨2, [20]⟩]).2.get_or_build 0
            [⟨1, [10]⟩, ⟨2, [20]⟩]).2.builds = emptyBindingCache.builds + 1)
    ∧ ((emptyBindingCache.get_or_build 0 [⟨1, [10]⟩, ⟨2, [20]⟩]).1 ≠
        ((emptyBindingCache.get_or_build 0
          [⟨1, [10]⟩, ⟨2, [20]⟩]).2.get_or_build 0
            [⟨3, [10]⟩, ⟨2, [20]⟩]).1)
    ∧ (((emptyBindingCache.get_or_build 0
          [⟨1, [10]⟩, ⟨2, [20]⟩]).2.get_or_build 0
            [⟨1, [99]⟩, ⟨2, [20]⟩]).1 =
        (emptyBindingCache.get_or_build 0 [⟨1, [10]⟩, ⟨2, [20]⟩]).1
      ∧ ((emptyBindingCache.get_or_build 0
          [⟨1, [10]⟩, ⟨2, [20]⟩]).2.get_or_build 0
            [⟨1, [99]⟩, ⟨2, [20]⟩]).2.entries.length =
          (emptyBindingCache.get_or_build 0
            [⟨1, [10]⟩, ⟨2, [20]⟩]).2.entries.length
      ∧ ((emptyBindingCache.get_or_build 0
          [⟨1, [10]⟩, ⟨2, [20]⟩]).2.get_or_build 0
            [⟨1, [99]⟩, ⟨2, [20]⟩]).2.builds =
          (emptyBindingCache.get_or_build 0
            [⟨1, [10]⟩, ⟨2, [20]⟩]).2.builds) :=
  resource_binding_cache_identity_key emptyBindingCache 0
    [⟨1, [10]⟩, ⟨2, [20]⟩] [⟨1, [99]⟩, ⟨2, [20]⟩] [⟨3, [10]⟩, ⟨2, [20]⟩]
    rfl rfl rfl (by decide)

/-! ## Claim C7 -/

/-- C7: across a resize notification, a fixed-mode image is kept exactly as
it was (same entry, hence its original dimensions), every window-relative
image is torn down and recreated at the new presentation-surface dimensions
(same tag and producer, fresh image), and the pass structure — pass list,
output tag, and the tag layout of the registry — is unchanged. -/
theorem resize_fixed_kept_window_relative_recreated (s : System)
    (newW newH fresh : Nat) :
    (s.resize newW newH fresh).passes = s.passes
    ∧ (s.resize newW newH fresh).output_tag = s.output_tag
    ∧ (s.resize newW newH fresh).registry.map Prod.fst =
        s.registry.map Prod.fst
    ∧ (∀ t img, (t, img) ∈ s.registry → img.mode = .fixed →
        (t, img) ∈ (s.resize newW newH fresh).registry)
    ∧ (∀ t img, (t, img) ∈ s.registry → img.mode = .windowRelative →
        ∃ img', (t, img') ∈ (s.resize newW newH fresh).registry ∧
          img'.width = newW ∧ img'.height = newH ∧
          img'.mode = .windowRelative ∧ img'.producedBy = img.producedBy) :=
  ⟨rfl, rfl, resizeRegistry_map_fst newW newH s.registry fresh,
   fun t img hmem hfix =>
     resizeRegistry_fixed_mem newW newH s.registry fresh t img hmem hfix,
   fun t img hmem hwr =>
     resizeRegistry_wr_mem newW newH s.registry fresh t img hmem hwr⟩

/-- C7 witness: a system holding the fixed 6144×1024 shadow map of
`pretty.rs` and a window-relative color image, resized to 1920×1080 — the
shadow map entry survives unchanged, the color image is recreated at
1920×1080. -/
theorem resize_fixed_kept_window_relative_recreated_witness :
    (("shadow_map", (⟨100, 6144, 1024, .fixed, none⟩ : Image)) ∈
        (resizeDemoSystem.resize 1920 1080 7).registry)
    ∧ ∃ img', ("color", img') ∈ (resizeDemoSystem.resize 1920 1080 7).registry
        ∧ img'.width = 1920 ∧ img'.height = 1080 ∧
          img'.mode = .windowRelative ∧ img'.producedBy = some "geometry" :=
  ⟨(resize_fixed_kept_window_relative_recreated resizeDemoSystem
      1920 1080 7).2.2.2.1 "shadow_map" ⟨100, 6144, 1024, .fixed, none⟩
      (by decide) rfl,
   (resize_fixed_kept_window_relative_recreated resizeDemoSystem
      1920 1080 7).2.2.2.2 "color" ⟨0, 800, 600, .windowRelative, some "geometry"⟩
      (by decide) rfl⟩

/-! ## Claim C8 -/

/-- C8: cache lookups never fail — a `get_or_build` call always returns a
handle and a cache, and a miss falls through to the build path (the returned
handle is the freshly built one and the build counter moves) — while a GPU
allocation or per-frame upload failure propagates as a fatal error: the
unwrap in `upload_data`/`immutable_slice` turns the failure into a panic (no
error value is ever returned to the caller on the success type), and the
first failing upload of a frame terminates the sequence with that failure,
with no retry and the remaining uploads never attempted. -/
theorem cache_lookups_total_gpu_failures_fatal :
    (∀ (c : PipelineCache) (s : PipelineSpec),
        lookupSpec c.entries s = none →
        (c.get_or_build s).1 = c.next_handle ∧
        (c.get_or_build s).2.builds = c.builds + 1)
    ∧ (∀ (c : PipelineCache) (s : PipelineSpec),
        ∃ h c', c.get_or_build s = (h, c'))
    ∧ (∀ (c : ResourceBindingCache) (l : Nat) (bs : List GpuBuffer),
        ∃ h c', c.get_or_build l bs = (h, c'))
    ∧ (∀ a : Nat, upload_data (.ok a) = Except.ok a)
    ∧ (∀ m : String, @upload_data Nat (.fail m) = Except.error m)
    ∧ (∀ m : String, @immutable_slice Nat (.fail m) = Except.error m)
    ∧ (∀ (pre : List (AllocResult Nat)) (m : String)
        (post : List (AllocResult Nat)),
        (∀ r ∈ pre, ∃ b, r = .ok b) →
        runUploads (pre ++ .fail m :: post) = .error m) := by
  refine ⟨?_, ?_, ?_, fun a => rfl, fun m => rfl, fun m => rfl, ?_⟩
  · intro c s hs
    simp [PipelineCache.get_or_build, hs]
  · intro c s
    exact ⟨(c.get_or_build s).1, (c.get_or_build s).2, rfl⟩
  · intro c l bs
    exact ⟨(c.get_or_build l bs).1, (c.get_or_build l bs).2, rfl⟩
  · exact runUploads_first_failure

/-- C8 witness: the miss-falls-through-to-build part at the empty cache with
the `all_frag` spec, and the fatal-upload part on a frame whose second upload
hits an out-of-memory failure: the frame ends with that error, the third
upload never runs. -/
theorem cache_lookups_total_gpu_failures_fatal_witness :
    ((emptyPipelineCache.get_or_build allFragSpec).1 =
        emptyPipelineCache.next_handle ∧
      (emptyPipelineCache.get_or_build allFragSpec).2.builds =
        emptyPipelineCache.builds + 1)
    ∧ runUploads [.ok 5, .fail "out of device memory", .ok 7] =
        .error "out of device memory" :=
  ⟨cache_lookups_total_gpu_failures_fatal.1 emptyPipelineCache allFragSpec rfl,
   cache_lookups_total_gpu_failures_fatal.2.2.2.2.2.2 [.ok 5]
     "out of device memory" [.ok 7]
     (fun r hr => ⟨5, by simpa using hr⟩)⟩

/-! ## Claim C9 -/

/-- C9: starting from `view_mode = 0`, with the C key stepping to
`(view_mode + 1) % 12` and the V key decrementing with a negative result
replaced by 12, the `view_mode` value stays in `0..=12` after every sequence
of key presses, so the panicking wildcard arm of the view-mode match is
unreachable (`viewModeArm` is `some` at every reachable value). -/
theorem view_mode_stays_in_range (ks : List FrameKeys) :
    0 ≤ viewModeRun ks ∧ viewModeRun ks ≤ 12 ∧
      (viewModeArm (viewModeRun ks)).isSome = true := by
  have h := viewModeFoldl_range ks 0 (by decide) (by decide)
  exact ⟨h.1, h.2, viewModeArm_isSome _ h.1 h.2⟩

/-- C9 witness: the theorem at a concrete key sequence (press C twice, then V
three times — wrapping below zero to 12 on the last press). -/
theorem view_mode_stays_in_range_witness :
    0 ≤ viewModeRun
        [⟨true, false⟩, ⟨true, false⟩, ⟨false, true⟩, ⟨false, true⟩,
         ⟨false, true⟩] ∧
      viewModeRun
        [⟨true, false⟩, ⟨true, false⟩, ⟨false, true⟩, ⟨false, true⟩,
         ⟨false, true⟩] ≤ 12 ∧
      (viewModeArm (viewModeRun
        [⟨true, false⟩, ⟨true, false⟩, ⟨false, true⟩, ⟨false, true⟩,
         ⟨false, true⟩])).isSome = true :=
  view_mode_stays_in_range
    [⟨true, false⟩, ⟨true, false⟩, ⟨false, true⟩, ⟨false, true⟩,
     ⟨false, true⟩]

/-! ## Claim C10 -/

/-- C10: for every base prototype and light position,
`convert_to_shadow_casters` returns exactly 6 objects — one per cubemap face
— and the i-th object (0-based) carries a dynamic viewport override with
origin `[1024.0 * i, 0.0]` and dimensions `[1024.0, 1024.0]`, the 6x1 patch
layout of the 6144×1024 shadow map. -/
theorem convert_to_shadow_casters_patch_layout (base : ObjectPrototypeBase)
    (lp : ℚ × ℚ × ℚ) :
    (convert_to_shadow_casters base lp).length = 6
    ∧ ∀ i : Fin 6,
        ((convert_to_shadow_casters base lp).map
          (fun o => o.custom_dynamic_state)).get? (i : ℕ) =
        some (some
          { viewports :=
              [ { origin := (1024 * ((i : ℕ) : ℚ), 0)
                  dimensions := (1024, 1024) } ] }) := by
  constructor
  · rfl
  · intro i
    fin_cases i <;> norm_num [convert_to_shadow_casters, view_directions,
      up_directions, patch_positions, PATCH_DIMS, dynamic_state_for_bounds]

/-- C10 witness: the theorem at the shadow-caster base prototype of
`pretty.rs` (lines 205–215) and a light position on the sphere the light
travels. -/
theorem convert_to_shadow_casters_patch_layout_witness :
    (convert_to_shadow_casters
      { vs_path := "shaders/pretty/shadow_cast_vert.glsl"
        fs_path := "shaders/pretty/shadow_cast_frag.glsl"
        fill_type := 0
        read_depth := true
        write_depth := true
        mesh := 0 } (100, 10, 0)).length = 6 :=
  (convert_to_shadow_casters_patch_layout
    { vs_path := "shaders/pretty/shadow_cast_vert.glsl"
      fs_path := "shaders/pretty/shadow_cast_frag.glsl"
      fill_type := 0
      read_depth := true
      write_depth := true
      mesh := 0 } (100, 10, 0)).1

end RenderEngine
